import Mathlib

/-!
Verification development for the finally-project repository (Express backend
in routes/auth.js and models/User.js, React frontend in AuthContext.jsx,
App.jsx and the Register/Login pages).

The JavaScript source is shallowly embedded below:
* bcrypt is modelled symbolically: a hash is an opaque value recording the
  cost factor, the salt and the hashed input, and bcrypt.compare succeeds
  exactly when the candidate equals the hashed input (the ideal one-way,
  collision-free behaviour the code relies on).  A bcrypt hash string has
  length 60, which is what the JavaScript length checks observe.
* Mongoose documents become plain structures, the database a list of
  documents; save runs schema validation, the pre-save hook and the unique
  email index, mirroring the order mongoose uses (validation before the
  user pre-save hook, duplicate-key error at write time).
* Express handlers become functions from the request payload and database
  to a status code and the resulting database.  JavaScript string
  truthiness is modelled by comparison with the empty string; absent body
  fields behave like the empty string on every path the routes take
  (both are falsy and both fail the format/length validators).
-/

namespace FinallyProject

/-- JavaScript string values in the password domain: either an ordinary
string or the opaque output of bcrypt.hash with a given cost and salt. -/
inductive JStr where
  | str (s : String)
  | bhash (cost salt : Nat) (input : JStr)
deriving DecidableEq

/-- Length of a JS string; bcrypt hash strings are 60 characters long. -/
def JStr.length : JStr → Nat
  | .str s => s.length
  | .bhash _ _ _ => 60

/-- Whether a value is a bcrypt hash (as opposed to a plaintext string). -/
def JStr.isBcryptHash : JStr → Bool
  | .bhash _ _ _ => true
  | .str _ => false

/-- JavaScript truthiness of a string: every string except the empty string
is truthy. -/
def jsTruthy (s : JStr) : Bool :=
  s.length != 0

/-- bcrypt.compare, as used by userSchema.methods.comparePassword: true
exactly when the stored value is a hash of the candidate; comparing against
a non-hash string yields false. -/
def comparePassword (candidatePassword : String) (stored : JStr) : Bool :=
  match stored with
  | .bhash _ _ input => input == JStr.str candidatePassword
  | .str _ => false

/-- The pre-save hook of userSchema (models/User.js): when the password
field was modified it is rejected if shorter than 6 characters and
otherwise replaced by a bcrypt hash with cost factor 12; an unmodified
password passes through untouched. -/
def preSave (salt : Nat) (passwordModified : Bool) (password : JStr) :
    Except String JStr :=
  if !passwordModified then .ok password
  else if password.length < 6 then
    .error "Password must be at least 6 characters long"
  else .ok (.bhash 12 salt password)

/-- The pre-findOneAndUpdate hook of userSchema (models/User.js): the
update object may or may not carry a password.  The guard is the JavaScript
truthiness test `if (update.password)`, so a present-but-falsy password
(the empty string) skips both the length check and the hashing and is kept
verbatim in the update. -/
def preFindOneAndUpdate (salt : Nat) (updatePassword : Option JStr) :
    Except String (Option JStr) :=
  match updatePassword with
  | none => .ok none
  | some p =>
    if jsTruthy p then
      if p.length < 6 then
        .error "Password must be at least 6 characters long"
      else .ok (some (.bhash 12 salt p))
    else .ok (some p)

/-- The four roles of the system, in ascending privilege. -/
inductive Role where
  | user
  | support
  | manager
  | admin
deriving DecidableEq

/-- String name of a role, as stored in user documents. -/
def Role.name : Role → String
  | .user => "user"
  | .support => "support"
  | .manager => "manager"
  | .admin => "admin"

/-- Numeric rank of a role under the fixed hierarchy of
userSchema.methods.hasRole. -/
def Role.rank : Role → Nat
  | .user => 1
  | .support => 2
  | .manager => 3
  | .admin => 4

/-- The roleHierarchy lookup object of userSchema.methods.hasRole; a string
that is not a role name maps to undefined, modelled as none. -/
def roleHierarchy (role : String) : Option Nat :=
  if role == "user" then some 1
  else if role == "support" then some 2
  else if role == "manager" then some 3
  else if role == "admin" then some 4
  else none

/-- userSchema.methods.hasRole: numeric-rank comparison of the caller role
against the required role.  In JavaScript a comparison against undefined is
false, hence the none cases. -/
def hasRole (thisRole requiredRole : String) : Bool :=
  match roleHierarchy thisRole, roleHierarchy requiredRole with
  | some a, some b => decide (b ≤ a)
  | _, _ => false

/-- Set-membership authorization, the allowedRoles.includes(userRole) check
of the ProtectedRoute component. -/
def authorizeSet (allowedRoles : List String) (role : String) : Bool :=
  allowedRoles.contains role

/-- Whitespace characters matched by the \s class of the email regex
(ASCII portion, which covers every input the routes deal with). -/
def isJsWhitespace (c : Char) : Bool :=
  c == ' ' || c == '\t' || c == '\n' || c == '\r' || c == '\x0b' || c == '\x0c'

/-- Splits a character list at every occurrence of the separator; the
number of parts is the number of separators plus one. -/
def splitAtChar (sep : Char) : List Char → List (List Char)
  | [] => [[]]
  | c :: rest =>
    match splitAtChar sep rest with
    | [] => if c == sep then [[], [c]] else [[c]]
    | h :: t => if c == sep then [] :: h :: t else (c :: h) :: t

/-- True when the list has a character equal to a dot at a position other
than the last one. -/
def hasDotBeforeEnd : List Char → Bool
  | [] => false
  | [_] => false
  | c :: rest => c == '.' || hasDotBeforeEnd rest

/-- The email regex of the routes and the schema,
^[^\s@]+@[^\s@]+\.[^\s@]+$ : exactly one at-sign; a nonempty local part
without whitespace; a domain without whitespace that decomposes as
A dot B with A and B nonempty, i.e. a dot at an inner position. -/
def validateEmail (email : String) : Bool :=
  match splitAtChar '@' email.toList with
  | [locPart, domPart] =>
    !locPart.isEmpty && locPart.all (fun c => !isJsWhitespace c) &&
    domPart.all (fun c => !isJsWhitespace c) &&
    (match domPart with
     | [] => false
     | _ :: rest => hasDotBeforeEnd rest)
  | _ => false

/-- The validatePassword helper of routes/auth.js: truthy and at least 6
characters (the empty string already fails the length test). -/
def validatePassword (password : String) : Bool :=
  decide (6 ≤ password.length)

/-- A user document, with the fields of userSchema the authentication
subsystem reads.  The id stands for the mongo object id; fields with plain
schema defaults that no claim touches (emailVerified, timezone, language,
profilePicture, phoneNumber) are elided. -/
structure UserDoc where
  id : Nat
  name : String
  email : String
  password : JStr
  role : String
  department : Option String
  position : Option String
  isActive : Bool
  lastLogin : Option Nat
deriving DecidableEq

/-- The role enum of userSchema. -/
def validRoleEnum (role : String) : Bool :=
  role == "admin" || role == "manager" || role == "support" || role == "user"

/-- Mongoose schema validation for the fields the routes can reach: name
required with length 2..50, email required and matching the regex,
password required with minlength 6 (a stored bcrypt hash has length 60 and
passes), role in the enum. -/
def schemaValidate (u : UserDoc) : Bool :=
  decide (2 ≤ u.name.length) && decide (u.name.length ≤ 50) &&
  validateEmail u.email && decide (6 ≤ u.password.length) &&
  validRoleEnum u.role

/-- Failure modes of a mongoose save, as discriminated by the route catch
blocks: a ValidationError (error.name check), a duplicate-key error
(error.code 11000 from the unique email index), or a plain error thrown by
a hook (neither, so the routes turn it into a 500). -/
inductive SaveError where
  | validationError
  | duplicateKey
  | hookError (msg : String)
deriving DecidableEq

/-- document.save(): runs schema validation, then the pre-save hook
(hashing a modified password), then writes, failing with a duplicate-key
error when another document holds the same email; an existing document
(same id) is replaced in place, a new one is appended. -/
def mongooseSave (salt : Nat) (passwordModified : Bool) (doc : UserDoc)
    (db : List UserDoc) : Except SaveError (List UserDoc) :=
  if !schemaValidate doc then .error .validationError
  else
    match preSave salt passwordModified doc.password with
    | .error e => .error (.hookError e)
    | .ok hashed =>
      let saved : UserDoc := { doc with password := hashed }
      if db.any (fun v => v.email == doc.email && v.id != doc.id) then
        .error .duplicateKey
      else if db.any (fun v => v.id == doc.id) then
        .ok (db.map (fun v => if v.id == doc.id then saved else v))
      else .ok (db ++ [saved])

/-- User.findOne({email}) over the document store. -/
def findByEmail (db : List UserDoc) (email : String) : Option UserDoc :=
  db.find? (fun u => u.email == email)

/-- User.findById over the document store. -/
def findById (db : List UserDoc) (id : Nat) : Option UserDoc :=
  db.find? (fun u => u.id == id)

/-- Outcome of a route handler: the HTTP status sent and the resulting
document store. -/
structure RouteResult where
  status : Nat
  db : List UserDoc
deriving DecidableEq

/-- POST /auth/login (routes/auth.js): presence check, email format check
and password length check (each 400), then user lookup and bcrypt
comparison (each 401), then lastLogin update and save followed by token
issuance (200).  A save failure lands in the catch block (500).  The token
payload itself is elided: no claim inspects it. -/
def loginRoute (salt now : Nat) (db : List UserDoc)
    (email password : String) : RouteResult :=
  if email == "" || password == "" then ⟨400, db⟩
  else if !validateEmail email then ⟨400, db⟩
  else if !validatePassword password then ⟨400, db⟩
  else
    match findByEmail db email with
    | none => ⟨401, db⟩
    | some user =>
      if !comparePassword password user.password then ⟨401, db⟩
      else
        match mongooseSave salt false { user with lastLogin := some now } db with
        | .error _ => ⟨500, db⟩
        | .ok db2 => ⟨200, db2⟩

/-- POST /auth/register (routes/auth.js): the public registration route.
Presence, email format and password length checks (400), duplicate email
lookup (409), then creation of the document with role `role || "user"`
(JavaScript truthiness: an absent or empty role falls back to "user") and
save; the catch block maps a ValidationError to 400, a duplicate-key error
to 409 and anything else to 500.  newId stands for the object id mongo
assigns to the new document. -/
def registerRoute (salt newId : Nat) (db : List UserDoc)
    (name email password role department position : String) : RouteResult :=
  if name == "" || email == "" || password == "" then ⟨400, db⟩
  else if !validateEmail email then ⟨400, db⟩
  else if !validatePassword password then ⟨400, db⟩
  else if (findByEmail db email).isSome then ⟨409, db⟩
  else
    let user : UserDoc :=
      { id := newId
        name := name
        email := email
        password := .str password
        role := if role == "" then "user" else role
        department := if department == "" then none else some department
        position := if position == "" then none else some position
        isActive := true
        lastLogin := none }
    match mongooseSave salt true user db with
    | .error .validationError => ⟨400, db⟩
    | .error .duplicateKey => ⟨409, db⟩
    | .error (.hookError _) => ⟨500, db⟩
    | .ok db2 => ⟨201, db2⟩

/-- POST /auth/admin/create-user (routes/auth.js): the very first statement
of the handler is the role gate, `if (req.user.role !== "admin") return
403`, before any payload validation, lookup, hashing or persistence; the
rest mirrors registration except that the role field is required. -/
def adminCreateUserRoute (salt newId : Nat) (tokenRole : String)
    (db : List UserDoc)
    (name email password role department position : String) : RouteResult :=
  if tokenRole != "admin" then ⟨403, db⟩
  else if name == "" || email == "" || password == "" || role == "" then ⟨400, db⟩
  else if !validateEmail email then ⟨400, db⟩
  else if !validatePassword password then ⟨400, db⟩
  else if (findByEmail db email).isSome then ⟨409, db⟩
  else
    let user : UserDoc :=
      { id := newId
        name := name
        email := email
        password := .str password
        role := role
        department := if department == "" then none else some department
        position := if position == "" then none else some position
        isActive := true
        lastLogin := none }
    match mongooseSave salt true user db with
    | .error .validationError => ⟨400, db⟩
    | .error .duplicateKey => ⟨409, db⟩
    | .error (.hookError _) => ⟨500, db⟩
    | .ok db2 => ⟨201, db2⟩

/-- POST /auth/change-password (routes/auth.js): presence check and new
password length check (400) come first, then the token user is fetched
(404 when absent), the current password is verified against the stored
hash (401 on mismatch), and only then is the password assigned and the
document saved, which re-runs the hashing hook (200; a save failure lands
in the catch block, 500). -/
def changePasswordRoute (salt tokenUserId : Nat) (db : List UserDoc)
    (currentPassword newPassword : String) : RouteResult :=
  if currentPassword == "" || newPassword == "" then ⟨400, db⟩
  else if !validatePassword newPassword then ⟨400, db⟩
  else
    match findById db tokenUserId with
    | none => ⟨404, db⟩
    | some user =>
      if !comparePassword currentPassword user.password then ⟨401, db⟩
      else
        match mongooseSave salt true { user with password := .str newPassword } db with
        | .error _ => ⟨500, db⟩
        | .ok db2 => ⟨200, db2⟩

/-! Client side: the React auth context (AuthContext.jsx) and the
ProtectedRoute component (App.jsx). -/

/-- What the ProtectedRoute component renders. -/
inductive RouteView where
  | loadingSpinner
  | redirectToLogin (fromLocation : String)
  | accessDenied (requiredRoles : List String)
  | content
deriving DecidableEq

/-- The ProtectedRoute component: loading spinner while the auth state is
loading; a redirect to /login carrying the requested location while there
is no current user; the access-denied view when the allowed-roles list is
nonempty and does not contain the user role; otherwise the children. -/
def protectedRoute (loading : Bool) (currentUser : Option String)
    (userRole : String) (allowedRoles : List String)
    (location : String) : RouteView :=
  if loading then .loadingSpinner
  else
    match currentUser with
    | none => .redirectToLogin location
    | some _ =>
      if decide (0 < allowedRoles.length) && !authorizeSet allowedRoles userRole then
        .accessDenied allowedRoles
      else .content

/-- A simulated user of AuthContext.jsx. -/
structure SimUser where
  password : String
  role : String
  id : String
deriving DecidableEq

/-- The simulatedUsers object literal the AuthProvider recreates on every
mount: exactly the two demo accounts. -/
def simulatedUsers : List (String × SimUser) :=
  [("admin@example.com", ⟨"password", "admin", "admin-123"⟩),
   ("user@example.com", ⟨"password", "user", "user-456"⟩)]

/-- Property lookup simulatedUsers[email]. -/
def lookupSimulatedUser (email : String) : Option SimUser :=
  (simulatedUsers.find? (fun p => p.1 == email)).map Prod.snd

/-- The parsed currentUser object persisted in localStorage. -/
structure StoredUserData where
  email : String
  uid : String
deriving DecidableEq

/-- The three localStorage keys the auth context persists; none models a
missing key. -/
structure ClientStorage where
  currentUser : Option StoredUserData
  userRole : Option String
  userId : Option String
deriving DecidableEq

/-- The provider state: currentUser, userRole, userId and the loading
flag. -/
structure ClientAuthState where
  currentUser : Option StoredUserData
  userRole : String
  userId : Option String
  loading : Bool
deriving DecidableEq

/-- checkAuthStatus of AuthContext.jsx, run once on mount from the initial
state (null user, role guest, loading): when all three stored items are
present and truthy, the session is restored exactly when the stored email
is a key of simulatedUsers, and otherwise clearAuthStorage removes the
three keys and resets the state; in every case loading ends false. -/
def checkAuthStatus (storage : ClientStorage) :
    ClientStorage × ClientAuthState :=
  match storage.currentUser, storage.userRole, storage.userId with
  | some u, some r, some i =>
    if r != "" && i != "" then
      match lookupSimulatedUser u.email with
      | some _ => (storage, ⟨some u, r, some i, false⟩)
      | none => (⟨none, none, none⟩, ⟨none, "guest", none, false⟩)
    else (storage, ⟨none, "guest", none, false⟩)
  | _, _, _ => (storage, ⟨none, "guest", none, false⟩)

/-- The availableRoles list offered by the registration page
(src/unnamed/part_000): value and label pairs. -/
def availableRoles : List (String × String) :=
  [("user", "Utilisateur standard"), ("admin", "Administrateur")]

/-- Pairwise distinctness of emails and ids across the document store,
the guarantee of the unique indexes. -/
def pairwiseDistinctUsers : List UserDoc → Bool
  | [] => true
  | u :: rest =>
    rest.all (fun v => v.email != u.email && v.id != u.id) &&
    pairwiseDistinctUsers rest

/-- A well-formed document store: every document passes schema validation
and emails and ids are pairwise distinct, which is exactly the state every
reachable store is in (all writes go through save). -/
def wellFormedDb (db : List UserDoc) : Bool :=
  db.all schemaValidate && pairwiseDistinctUsers db

/-! Helper lemmas about the embedded operations. -/

theorem schemaValidate_spec {u : UserDoc} :
    schemaValidate u = true ↔
      2 ≤ u.name.length ∧ u.name.length ≤ 50 ∧ validateEmail u.email = true ∧
      6 ≤ u.password.length ∧ validRoleEnum u.role = true := by
  simp [schemaValidate, and_assoc]

theorem wellFormedDb_validate {db : List UserDoc} {u : UserDoc}
    (hwf : wellFormedDb db = true) (hu : u ∈ db) : schemaValidate u = true := by
  have := (Bool.and_eq_true _ _).mp hwf |>.1
  exact (List.all_eq_true.mp this) u hu

theorem pairwiseDistinct_email_id {db : List UserDoc} {u v : UserDoc}
    (hpd : pairwiseDistinctUsers db = true) (hu : u ∈ db) (hv : v ∈ db)
    (he : v.email = u.email) : v.id = u.id := by
  induction db with
  | nil => cases hu
  | cons w rest ih =>
    rw [pairwiseDistinctUsers, Bool.and_eq_true] at hpd
    obtain ⟨hall, hrest⟩ := hpd
    have hall := List.all_eq_true.mp hall
    rcases List.mem_cons.mp hu with hu | hu <;>
      rcases List.mem_cons.mp hv with hv | hv
    · rw [hu, hv]
    · exfalso
      have := hall v hv
      rw [Bool.and_eq_true, bne_iff_ne, bne_iff_ne] at this
      exact this.1 (hu ▸ he)
    · exfalso
      have := hall u hu
      rw [Bool.and_eq_true, bne_iff_ne, bne_iff_ne] at this
      exact this.1 (hv ▸ he.symm)
    · exact ih hrest hu hv

theorem wellFormedDb_email_unique {db : List UserDoc} {u v : UserDoc}
    (hwf : wellFormedDb db = true) (hu : u ∈ db) (hv : v ∈ db)
    (he : v.email = u.email) : v.id = u.id :=
  pairwiseDistinct_email_id ((Bool.and_eq_true _ _).mp hwf).2 hu hv he

theorem preSave_ok (salt : Nat) (m : Bool) (p : JStr) (h6 : 6 ≤ p.length) :
    preSave salt m p = .ok (if m then JStr.bhash 12 salt p else p) := by
  cases m with
  | false => rfl
  | true => simp [preSave, Nat.not_lt.mpr h6]

/-- Saving an updated copy of a document that is already in a well-formed
store succeeds: validation passes, the hashing hook cannot fail, and the
unique email index is not violated. -/
theorem mongooseSave_update_ok (salt : Nat) (m : Bool) {db : List UserDoc}
    {user : UserDoc} (updated : UserDoc)
    (hwf : wellFormedDb db = true) (hmem : user ∈ db)
    (hid : updated.id = user.id) (hemail : updated.email = user.email)
    (hval : schemaValidate updated = true) :
    mongooseSave salt m updated db =
      .ok (db.map (fun v => if v.id == updated.id then
        { updated with
            password := if m then JStr.bhash 12 salt updated.password
                        else updated.password }
        else v)) := by
  have h6 : 6 ≤ updated.password.length := (schemaValidate_spec.mp hval).2.2.2.1
  have hdup : db.any (fun v => v.email == updated.email && v.id != updated.id) = false := by
    rw [List.any_eq_false]
    intro v hv
    by_cases he : v.email = updated.email
    · have : v.id = user.id :=
        wellFormedDb_email_unique hwf hmem hv (hemail ▸ he)
      simp [this, hid]
    · simp [he]
  have hfound : db.any (fun v => v.id == updated.id) = true :=
    List.any_eq_true.mpr ⟨user, hmem, by simp [hid]⟩
  simp only [mongooseSave, hval, Bool.not_true, if_false,
    preSave_ok salt m updated.password h6, hdup, hfound, Bool.false_eq_true,
    if_true]

theorem validateEmail_ne_empty {email : String}
    (h : validateEmail email = true) : email ≠ "" := by
  intro he
  rw [he] at h
  exact absurd h (by decide)

theorem length_ge_six_ne_empty {p : String} (h : 6 ≤ p.length) : p ≠ "" := by
  intro he
  rw [he] at h
  exact absurd h (by decide)

theorem ne_empty_of_two_le_length {s : String} (h : 2 ≤ s.length) : s ≠ "" := by
  intro he
  rw [he] at h
  exact absurd h (by decide)

/-- Saving a fresh document (id and email not yet in the store) appends it
with the password hashed, provided schema validation passes. -/
theorem mongooseSave_new_ok (salt : Nat) {db : List UserDoc} (doc : UserDoc)
    (hval : schemaValidate doc = true)
    (hemail : ∀ v ∈ db, (v.email == doc.email) = false)
    (hid : ∀ v ∈ db, (v.id == doc.id) = false) :
    mongooseSave salt true doc db =
      .ok (db ++ [{ doc with password := .bhash 12 salt doc.password }]) := by
  have h6 : 6 ≤ doc.password.length := (schemaValidate_spec.mp hval).2.2.2.1
  have hdup : db.any (fun v => v.email == doc.email && v.id != doc.id) = false := by
    rw [List.any_eq_false]
    intro v hv
    simp [hemail v hv]
  have hfound : db.any (fun v => v.id == doc.id) = false := by
    rw [List.any_eq_false]
    intro v hv
    simp [hid v hv]
  simp only [mongooseSave, hval, Bool.not_true, if_false,
    preSave_ok salt true doc.password h6, hdup, hfound, Bool.false_eq_true,
    if_true]

/-! Claim theorems. -/

/-- C1: the claim says both password-write paths (pre-save hook and
pre-findOneAndUpdate hook) reject plaintexts shorter than 6 characters and
always hash before persistence, so no write persists a plaintext.  The
code violates this: the update hook guards with the JavaScript truthiness
test `if (update.password)`, so an update that sets the password to the
empty string skips both the strength check and the hashing and persists
the plaintext empty string verbatim, while the save path rejects the same
value.  This theorem evaluates both hooks at that failing input. -/
theorem findOneAndUpdate_empty_password_bypass :
    preFindOneAndUpdate 0 (some (JStr.str "")) = .ok (some (JStr.str "")) ∧
    (JStr.str "").isBcryptHash = false ∧
    (JStr.str "").length < 6 ∧
    preSave 0 true (JStr.str "") =
      .error "Password must be at least 6 characters long" :=
  ⟨rfl, rfl, by decide, rfl⟩

/-- C2: the hierarchical check hasRole grants access exactly when the
caller rank is at least the required rank under user=1, support=2,
manager=3, admin=4; the set-membership check grants access exactly when
the role is a member of the allowed list; and in particular support is
denied a manager-rank route but admitted to a route allowing user and
support. -/
theorem role_checks_correct :
    (∀ c r : Role, hasRole c.name r.name = true ↔ r.rank ≤ c.rank) ∧
    (∀ (allowedRoles : List String) (role : String),
        authorizeSet allowedRoles role = true ↔ role ∈ allowedRoles) ∧
    hasRole "support" "manager" = false ∧
    authorizeSet ["user", "support"] "support" = true := by
  refine ⟨?_, ?_, by decide, by decide⟩
  · intro c r
    cases c <;> cases r <;> decide
  · intro allowedRoles role
    simp [authorizeSet]

/-- C2 witness: admin is admitted to a manager-rank check. -/
theorem role_checks_correct_witness : hasRole "admin" "manager" = true :=
  (role_checks_correct.1 Role.admin Role.manager).mpr (by decide)

/-- C4: hashing a plaintext of length at least 6 through the pre-save hook
yields a value that comparePassword accepts for that plaintext and rejects
for every other plaintext (bcrypt modelled as an ideal salted hash with
cost factor 12). -/
theorem comparePassword_roundtrip (salt : Nat) (p q : String)
    (hp : 6 ≤ p.length) (hq : q ≠ p) :
    preSave salt true (JStr.str p) = .ok (JStr.bhash 12 salt (JStr.str p)) ∧
    comparePassword p (JStr.bhash 12 salt (JStr.str p)) = true ∧
    comparePassword q (JStr.bhash 12 salt (JStr.str p)) = false := by
  refine ⟨?_, by simp [comparePassword],
    by simp [comparePassword, (Ne.symm hq : p ≠ q)]⟩
  have : (JStr.str p).length = p.length := rfl
  simp [preSave, this, Nat.not_lt.mpr hp]

/-- C4 witness: concrete round trip for the password secret1 against the
candidate password2. -/
theorem comparePassword_roundtrip_witness :
    preSave 5 true (JStr.str "secret1") =
      .ok (JStr.bhash 12 5 (JStr.str "secret1")) ∧
    comparePassword "secret1" (JStr.bhash 12 5 (JStr.str "secret1")) = true ∧
    comparePassword "password2" (JStr.bhash 12 5 (JStr.str "secret1")) = false :=
  comparePassword_roundtrip 5 "secret1" "password2" (by decide) (by decide)

/-- C7: the admin create-user route returns 403 for every non-admin token
role, whatever the payload and the store, and leaves the store untouched:
the role gate is the first statement of the handler, before any
validation, lookup, hashing or persistence. -/
theorem admin_create_user_non_admin_403
    (salt newId : Nat) (tokenRole : String) (db : List UserDoc)
    (name email password role department position : String)
    (h : tokenRole ≠ "admin") :
    adminCreateUserRoute salt newId tokenRole db
      name email password role department position = ⟨403, db⟩ := by
  simp [adminCreateUserRoute, h]

/-- C7 witness: a support token with a completely empty (invalid) payload
still gets 403, not 400. -/
theorem admin_create_user_non_admin_403_witness :
    adminCreateUserRoute 0 1 "support" [] "" "" "" "" "" "" = ⟨403, []⟩ :=
  admin_create_user_non_admin_403 0 1 "support" [] "" "" "" "" "" ""
    (by decide)

/-- C8: the route guard renders the loading spinner while loading,
redirects to login carrying the requested location when there is no
current user, renders the access-denied view when the nonempty allowed
list does not contain the user role, and otherwise renders the protected
content. -/
theorem protected_route_rendering :
    (∀ (currentUser : Option String) (role : String)
        (allowed : List String) (loc : String),
        protectedRoute true currentUser role allowed loc =
          RouteView.loadingSpinner) ∧
    (∀ (role : String) (allowed : List String) (loc : String),
        protectedRoute false none role allowed loc =
          RouteView.redirectToLogin loc) ∧
    (∀ (u role : String) (allowed : List String) (loc : String),
        allowed ≠ [] → role ∉ allowed →
        protectedRoute false (some u) role allowed loc =
          RouteView.accessDenied allowed) ∧
    (∀ (u role : String) (allowed : List String) (loc : String),
        allowed = [] ∨ role ∈ allowed →
        protectedRoute false (some u) role allowed loc =
          RouteView.content) := by
  refine ⟨fun _ _ _ _ => rfl, fun _ _ _ => rfl, ?_, ?_⟩
  · intro u role allowed loc hne hnm
    have hlen : 0 < allowed.length := List.length_pos.mpr hne
    simp [protectedRoute, authorizeSet, hlen, hnm]
  · intro u role allowed loc h
    rcases h with h | h
    · simp [protectedRoute, h]
    · simp [protectedRoute, authorizeSet, h]

/-- C8 witness: a support user on the admin-only users page sees the
access-denied view. -/
theorem protected_route_rendering_witness :
    protectedRoute false (some "u1") "support" ["admin"] "/users" =
      RouteView.accessDenied ["admin"] :=
  protected_route_rendering.2.2.1 "u1" "support" ["admin"] "/users"
    (by decide) (by decide)

/-- The registered user of the login scenario: Alice, a@x.com, with the
stored bcrypt hash of secret1. -/
def aliceUser : UserDoc :=
  { id := 1, name := "Alice", email := "a@x.com",
    password := .bhash 12 7 (.str "secret1"), role := "user",
    department := none, position := none, isActive := true,
    lastLogin := none }

/-- C3 counterexample: the claim says login with the registered email
a@x.com and the incorrect password wrong returns 401, but wrong has 5
characters and the route rejects it as a validation failure with 400
before ever looking the user up. -/
theorem login_wrong_short_password_returns_400 :
    comparePassword "secret1" aliceUser.password = true ∧
    loginRoute 0 0 [aliceUser] "a@x.com" "wrong" = ⟨400, [aliceUser]⟩ ∧
    (loginRoute 0 0 [aliceUser] "a@x.com" "wrong").status ≠ 401 := by
  refine ⟨rfl, by decide, by decide⟩

/-- C3 (amended): a login with a registered email and an incorrect
password that passes format validation (length at least 6) returns 401;
an incorrect password shorter than 6 characters returns 400 instead, so
login of a@x.com with wrong returns 400; over a well-formed store the
route returns only 200, 400 or 401. -/
theorem login_invalid_credential_behavior :
    (∀ (salt now : Nat) (db : List UserDoc) (email password : String)
        (user : UserDoc),
        validateEmail email = true → 6 ≤ password.length →
        findByEmail db email = some user →
        comparePassword password user.password = false →
        loginRoute salt now db email password = ⟨401, db⟩) ∧
    (∀ (salt now : Nat) (db : List UserDoc) (email password : String),
        wellFormedDb db = true →
        (loginRoute salt now db email password).status ∈ [200, 400, 401]) := by
  constructor
  · intro salt now db email password user hem hlen hfind hcmp
    have hne : email ≠ "" := validateEmail_ne_empty hem
    have hpne : password ≠ "" := length_ge_six_ne_empty hlen
    simp [loginRoute, hne, hpne, hem, validatePassword, hlen, hfind, hcmp]
  · intro salt now db email password hwf
    rw [loginRoute]
    split
    · simp
    split
    · simp
    split
    · simp
    split
    · simp
    rename_i user hfind
    split
    · simp
    have hmem : user ∈ db := List.mem_of_find?_eq_some hfind
    have hval0 := wellFormedDb_validate hwf hmem
    have hval : schemaValidate { user with lastLogin := some now } = true := by
      have hu := schemaValidate_spec.mp hval0
      exact schemaValidate_spec.mpr ⟨hu.1, hu.2.1, hu.2.2.1, hu.2.2.2.1, hu.2.2.2.2⟩
    rw [mongooseSave_update_ok salt false { user with lastLogin := some now }
      hwf hmem rfl rfl hval]
    simp

/-- C3 witness: an incorrect password of valid length gets 401 from the
same store. -/
theorem login_invalid_credential_behavior_witness :
    loginRoute 0 0 [aliceUser] "a@x.com" "wrong66" = ⟨401, [aliceUser]⟩ :=
  login_invalid_credential_behavior.1 0 0 [aliceUser] "a@x.com" "wrong66"
    aliceUser (by decide) (by decide) (by decide) (by decide)

/-- On every non-200 outcome the change-password route leaves the store
untouched. -/
theorem changePasswordRoute_db_invariant (salt tokenUserId : Nat)
    (db : List UserDoc) (currentPassword newPassword : String) :
    (changePasswordRoute salt tokenUserId db currentPassword newPassword).status
      = 200 ∨
    (changePasswordRoute salt tokenUserId db currentPassword newPassword).db
      = db := by
  rw [changePasswordRoute]
  split
  · right; rfl
  split
  · right; rfl
  split
  · right; rfl
  split
  · right; rfl
  split
  · right; rfl
  · left; rfl

/-- The registered user for the change-password scenarios: Bob with the
stored bcrypt hash of hunter22. -/
def bobUser : UserDoc :=
  { id := 2, name := "Bob", email := "b@x.com",
    password := .bhash 12 9 (.str "hunter22"), role := "user",
    department := none, position := none, isActive := true,
    lastLogin := none }

/-- C5 counterexample: a request whose currentPassword does not match the
stored hash but whose newPassword is shorter than 6 characters gets 400,
not 401 — the new-password validation runs before the current-password
check. -/
theorem change_password_mismatch_short_new_returns_400 :
    comparePassword "nomatch" bobUser.password = false ∧
    changePasswordRoute 0 2 [bobUser] "nomatch" "x" = ⟨400, [bobUser]⟩ ∧
    (changePasswordRoute 0 2 [bobUser] "nomatch" "x").status ≠ 401 := by
  refine ⟨rfl, by decide, by decide⟩

/-- C5 (amended): when the request passes input validation (both fields
present, newPassword at least 6 characters) and the token resolves to an
existing user whose stored hash does not match currentPassword, the
response is 401 and the store (hence the stored hash) is unchanged;
requests failing the earlier checks get other error statuses but also
leave the store unchanged. -/
theorem change_password_wrong_current_401_unchanged :
    (∀ (salt tokenUserId : Nat) (db : List UserDoc)
        (currentPassword newPassword : String) (user : UserDoc),
        currentPassword ≠ "" → 6 ≤ newPassword.length →
        findById db tokenUserId = some user →
        comparePassword currentPassword user.password = false →
        changePasswordRoute salt tokenUserId db currentPassword newPassword
          = ⟨401, db⟩) ∧
    (∀ (salt tokenUserId : Nat) (db : List UserDoc)
        (currentPassword newPassword : String),
        (changePasswordRoute salt tokenUserId db
            currentPassword newPassword).status ≠ 200 →
        (changePasswordRoute salt tokenUserId db
            currentPassword newPassword).db = db) := by
  constructor
  · intro salt tokenUserId db currentPassword newPassword user hcne hlen hfind hcmp
    have hnne : newPassword ≠ "" := length_ge_six_ne_empty hlen
    simp [changePasswordRoute, hcne, hnne, validatePassword, hlen, hfind, hcmp]
  · intro salt tokenUserId db currentPassword newPassword h
    rcases changePasswordRoute_db_invariant salt tokenUserId db
      currentPassword newPassword with h200 | hdb
    · exact absurd h200 h
    · exact hdb

/-- C5 witness: a wrong current password of valid shape gets 401 and the
store is returned unchanged. -/
theorem change_password_wrong_current_401_unchanged_witness :
    changePasswordRoute 0 2 [bobUser] "wrong777" "newpass1" = ⟨401, [bobUser]⟩ :=
  change_password_wrong_current_401_unchanged.1 0 2 [bobUser]
    "wrong777" "newpass1" bobUser (by decide) (by decide) (by decide) (by decide)

/-- The registered user for the change-password status scenarios: Cara
with the stored bcrypt hash of topsecret. -/
def caraUser : UserDoc :=
  { id := 3, name := "Cara", email := "c@x.com",
    password := .bhash 12 3 (.str "topsecret"), role := "manager",
    department := none, position := none, isActive := true,
    lastLogin := none }

/-- C6 counterexample: a syntactically valid request whose bearer token
identifies a user that no longer exists in the store gets 404, a status
outside the claimed set 200, 400, 401 (tokens stay valid after account
deletion, so the path is reachable with a valid token). -/
theorem change_password_missing_user_returns_404 :
    changePasswordRoute 0 99 [] "current1" "newpass1" = ⟨404, []⟩ ∧
    (404 : Nat) ∉ [200, 400, 401] := by
  refine ⟨by decide, by decide⟩

/-- C6 (amended): over a well-formed store, the change-password route
returns exactly one of 200 (success), 400 (validation failure), 401
(wrong current password) or 404 (the token user no longer exists). -/
theorem change_password_status_set (salt tokenUserId : Nat)
    (db : List UserDoc) (currentPassword newPassword : String)
    (hwf : wellFormedDb db = true) :
    (changePasswordRoute salt tokenUserId db currentPassword newPassword).status
      ∈ [200, 400, 401, 404] := by
  rw [changePasswordRoute]
  split
  · simp
  rename_i hvalid
  split
  · simp
  rename_i hnewlen
  split
  · simp
  rename_i user hfind
  split
  · simp
  have hmem : user ∈ db := List.mem_of_find?_eq_some hfind
  have hlen : 6 ≤ newPassword.length := by
    have : validatePassword newPassword = true := by
      revert hnewlen
      cases validatePassword newPassword <;> simp
    exact of_decide_eq_true this
  have hu := schemaValidate_spec.mp (wellFormedDb_validate hwf hmem)
  have hval : schemaValidate { user with password := .str newPassword } = true :=
    schemaValidate_spec.mpr ⟨hu.1, hu.2.1, hu.2.2.1, hlen, hu.2.2.2.2⟩
  rw [mongooseSave_update_ok salt true { user with password := .str newPassword }
    hwf hmem rfl rfl hval]
  simp

/-- C6 witness: a successful password change over a concrete well-formed
store yields a status in the set. -/
theorem change_password_status_set_witness :
    (changePasswordRoute 0 3 [caraUser] "topsecret" "newpass1").status
      ∈ [200, 400, 401, 404] :=
  change_password_status_set 0 3 [caraUser] "topsecret" "newpass1" (by decide)

/-- C9 counterexample: a supplied role outside the schema enum is not
stored verbatim — the save fails validation and the route answers 400
with the store unchanged — refuting the claim that any caller-supplied
role is persisted as given. -/
theorem register_invalid_role_not_stored :
    validRoleEnum "root" = false ∧
    registerRoute 0 1 [] "Roota" "r@x.com" "secret1" "root" "" "" = ⟨400, []⟩ := by
  refine ⟨by decide, by decide⟩

/-- C9 (amended): the public registration route applies no authorization
check to the requested role; a caller-supplied role is stored verbatim
whenever it passes the schema enum (admin, manager, support, user), with
an absent or empty role falling back to user, and any other supplied role
is rejected with 400 by schema validation; in particular an
unauthenticated registration with role admin creates an admin account,
and the registration page offers admin as a selectable role. -/
theorem register_role_stored :
    ("admin" ∈ availableRoles.map Prod.fst) ∧
    (∀ (salt newId : Nat) (db : List UserDoc)
        (name email password role department position : String),
        2 ≤ name.length → name.length ≤ 50 →
        validateEmail email = true → 6 ≤ password.length →
        findByEmail db email = none →
        (∀ v ∈ db, v.id ≠ newId) →
        validRoleEnum (if role == "" then "user" else role) = true →
        ∃ saved : UserDoc,
          registerRoute salt newId db name email password role
            department position = ⟨201, db ++ [saved]⟩ ∧
          saved.role = (if role == "" then "user" else role) ∧
          saved.password = .bhash 12 salt (.str password) ∧
          saved.email = email ∧ saved.id = newId) := by
  refine ⟨by decide, ?_⟩
  intro salt newId db name email password role department position
    hn2 hn50 hem hplen hfresh hids hrole
  have hne : name ≠ "" := ne_empty_of_two_le_length hn2
  have hene : email ≠ "" := validateEmail_ne_empty hem
  have hpne : password ≠ "" := length_ge_six_ne_empty hplen
  have hvp : validatePassword password = true := decide_eq_true hplen
  have hnotfound : ∀ v ∈ db, (v.email == email) = false := by
    intro v hv
    simpa using List.find?_eq_none.mp hfresh v hv
  have hidfalse : ∀ v ∈ db, (v.id == newId) = false := by
    intro v hv
    simpa using hids v hv
  have hcond1 : (name == "" || email == "" || password == "") = false := by
    simp [hne, hene, hpne]
  have hcond4 : (findByEmail db email).isSome = false := by
    simp [hfresh]
  have hsave := mongooseSave_new_ok salt
    { id := newId, name := name, email := email,
      password := JStr.str password,
      role := if role == "" then "user" else role,
      department := if department == "" then none else some department,
      position := if position == "" then none else some position,
      isActive := true, lastLogin := none }
    (schemaValidate_spec.mpr ⟨hn2, hn50, hem, hplen, hrole⟩)
    hnotfound hidfalse
  refine ⟨{ id := newId, name := name, email := email,
            password := .bhash 12 salt (.str password),
            role := if role == "" then "user" else role,
            department := if department == "" then none else some department,
            position := if position == "" then none else some position,
            isActive := true, lastLogin := none }, ?_, rfl, rfl, rfl, rfl⟩
  simp only [registerRoute, hcond1, hem, hvp, hcond4, Bool.not_true,
    Bool.false_eq_true, if_false, hsave]

/-- C9 witness: an unauthenticated registration carrying role admin
creates an account whose stored role is admin and whose password is the
bcrypt hash, never the plaintext. -/
theorem register_role_stored_witness :
    ∃ saved : UserDoc,
      registerRoute 0 1 [] "Alice" "a@x.com" "secret1" "admin" "" ""
        = ⟨201, [saved]⟩ ∧
      saved.role = "admin" ∧
      saved.password = .bhash 12 0 (.str "secret1") ∧
      saved.email = "a@x.com" ∧ saved.id = 1 :=
  register_role_stored.2 0 1 [] "Alice" "a@x.com" "secret1" "admin" "" ""
    (by decide) (by decide) (by decide) (by decide) rfl (by simp) (by decide)

/-- C10: on client startup the persisted session is restored to the
authenticated state only when the stored email is a key of the simulated
users map, whose keys are exactly admin@example.com and user@example.com;
for every other persisted email the three storage keys are removed and
the state ends unauthenticated with role guest. -/
theorem check_auth_status_session_restore :
    (simulatedUsers.map Prod.fst = ["admin@example.com", "user@example.com"]) ∧
    (∀ (storage : ClientStorage) (u : StoredUserData),
        (checkAuthStatus storage).2.currentUser = some u →
        (lookupSimulatedUser u.email).isSome = true) ∧
    (∀ (storage : ClientStorage) (u : StoredUserData) (r i : String),
        storage.currentUser = some u → storage.userRole = some r → r ≠ "" →
        storage.userId = some i → i ≠ "" →
        lookupSimulatedUser u.email = none →
        checkAuthStatus storage =
          (⟨none, none, none⟩, ⟨none, "guest", none, false⟩)) := by
  refine ⟨rfl, ?_, ?_⟩
  · intro storage u h
    rcases storage with ⟨cu, ur, ui⟩
    rcases cu with _ | v
    · simp [checkAuthStatus] at h
    rcases ur with _ | r
    · simp [checkAuthStatus] at h
    rcases ui with _ | i
    · simp [checkAuthStatus] at h
    simp only [checkAuthStatus] at h
    split at h
    · split at h
      · rename_i w hw
        simp only at h
        obtain rfl : _ = u := Option.some_inj.mp h
        rw [hw]
        rfl
      · simp at h
    · simp at h
  · intro storage u r i hcu hur hr hui hi hlk
    rcases storage with ⟨cu, ur, ui⟩
    simp only at hcu hur hui
    subst hcu hur hui
    simp [checkAuthStatus, hr, hi, hlk]

/-- C10 witness: a session persisted for an email outside the simulated
map (such as one registered in a previous browser session) is cleared and
the state ends unauthenticated with role guest. -/
theorem check_auth_status_session_restore_witness :
    checkAuthStatus ⟨some ⟨"alice@x.com", "user-1"⟩, some "user", some "user-1"⟩
      = (⟨none, none, none⟩, ⟨none, "guest", none, false⟩) :=
  check_auth_status_session_restore.2.2
    ⟨some ⟨"alice@x.com", "user-1"⟩, some "user", some "user-1"⟩
    ⟨"alice@x.com", "user-1"⟩ "user" "user-1"
    rfl rfl (by decide) rfl (by decide) (by decide)

end FinallyProject
